import Mathlib

/-!
# Verification of the amazon-scraper pipeline (src/index.js)

Shallow embedding of the core pipeline of the repository:
validator (`KeywordValidator.validate`), HTTP fetch loop
(`AmazonHttpClient.fetchHtml`), markup field extraction
(`AmazonHtmlParser`), TTL cache (`Cache`) and the orchestration
(`AmazonScraperService.scrape`).

External libraries are modelled at their observable interface:
* axios is modelled by the outcome of each HTTP attempt (a status
  plus body, or a network error); axios raises an error exactly when
  the configured `validateStatus` predicate rejects the final status.
* jsdom is modelled by the list of matched search-result elements in
  document order, each abstracted to the four query results the field
  extractors read (`Item`).

JavaScript machine numbers appearing in the claims are exact here:
review counts are `Nat`, parsed ratings are `ℚ` (`none` models `NaN`).
-/

/-- JavaScript `\s` / `String.prototype.trim` whitespace class
(WhiteSpace ∪ LineTerminator). -/
def jsWhitespace (c : Char) : Bool :=
  c = ' ' || c = '\t' || c = '\n' || c.toNat = 0x0b || c.toNat = 0x0c ||
  c = '\r' || c.toNat = 0xa0 || c.toNat = 0x1680 ||
  (0x2000 <= c.toNat && c.toNat <= 0x200a) ||
  c.toNat = 0x2028 || c.toNat = 0x2029 || c.toNat = 0x202f ||
  c.toNat = 0x205f || c.toNat = 0x3000 || c.toNat = 0xfeff

/-- JavaScript `\w` word-character class: `[A-Za-z0-9_]`. -/
def jsWordChar (c : Char) : Bool :=
  (0x41 ≤ c.toNat && c.toNat ≤ 0x5a) || (0x61 ≤ c.toNat && c.toNat ≤ 0x7a) ||
  (0x30 ≤ c.toNat && c.toNat ≤ 0x39) || c = '_'

/-- One character of the keyword allow-list `[\w\s-]`
(source: `KEYWORD_REGEX = /^[\w\s-]+$/`, src/index.js line 10). -/
def allowedChar (c : Char) : Bool :=
  jsWordChar c || jsWhitespace c || c = '-'

/-- Model of `KEYWORD_REGEX.test s` for `/^[\w\s-]+$/`: the whole string is a
non-empty run of allow-listed characters. -/
def keywordRegexTest (s : String) : Bool :=
  !s.data.isEmpty && s.data.all allowedChar

/-- Model of `String.prototype.trim` on a character list: drop JS whitespace from
both ends. -/
def jsTrimList (l : List Char) : List Char :=
  ((l.dropWhile jsWhitespace).reverse.dropWhile jsWhitespace).reverse

/-- JavaScript `keyword.trim()`. -/
def jsTrim (s : String) : String :=
  String.mk (jsTrimList s.data)

/-- Constant `MAX_KEYWORD_LENGTH` (src/index.js line 9). -/
def MAX_KEYWORD_LENGTH : Nat := 50

namespace KeywordValidator

/-- Method `KeywordValidator.validate` (src/index.js lines 22–29): reject the
empty string, strings longer than 50 characters, and strings with a
character outside `[\w\s-]`; otherwise return the trimmed input.
`throw new ValidationError(msg)` is modelled as `Except.error msg`. -/
def validate (keyword : String) : Except String String :=
  if keyword = "" then .error "Keyword is required"
  else if keyword.length > MAX_KEYWORD_LENGTH then
    .error "Keyword must be at most 50 characters"
  else if ¬ keywordRegexTest keyword then
    .error "Keyword contains invalid characters"
  else .ok (jsTrim keyword)

end KeywordValidator

/-! ## FetchClient (`AmazonHttpClient`, src/index.js lines 38–79) -/

/-- Observable outcome of one HTTP attempt, as surfaced by axios to the
caller: either the final settled response (status plus body text) or a
transport-level failure carrying only a message (timeout, DNS error,
size cap, redirect-loop exhaustion, ...). -/
inductive FetchOutcome where
  | response (status : Nat) (body : String)
  | networkError (msg : String)
deriving DecidableEq, Repr

/-- The `validateStatus` predicate configured on the axios request
(src/index.js line 57): axios resolves exactly the statuses in
`[200, 400)` and raises for the rest. -/
def validateStatus (status : Nat) : Bool :=
  200 ≤ status && status < 400

/-- Message `err.message` of an axios HTTP-status error. -/
def axiosStatusMessage (status : Nat) : String :=
  "Request failed with status code " ++ toString status

/-- Result of one `fetchHtml` call, instrumented with the observable
effects the claims speak about: the number of `axios.get` attempts made
and the list of backoff waits (in ms, in order). -/
structure FetchResult where
  result : Except String String
  attempts : Nat
  delays : List Nat
deriving Repr

/-- The body of `AmazonHttpClient.fetchHtml`'s `while` loop
(src/index.js lines 45–78), unrolled from the current `attempt`
counter.  `upstream n` is what axios surfaces on the `n`-th attempt.
Branches mirror the source in order:
* axios resolves (`validateStatus` accepts the status): return the body;
* `err.response.status` in `[300, 400)`: `Redirect blocked` — note this
  branch is unreachable, since `validateStatus` accepts those statuses;
* status 503: increment `attempt`; past `maxRetries` raise
  `Failed after ... retries` with the last error message, otherwise
  sleep `retryDelay * attempt` and loop;
* anything else: raise `Failed to fetch HTML` immediately
  (`err.response?.status || err.message`). -/
def fetchHtmlFrom (upstream : Nat → FetchOutcome) (maxRetries retryDelay : Nat)
    (attempt : Nat) : FetchResult :=
  match upstream attempt with
  | .networkError msg =>
      ⟨.error ("Failed to fetch HTML: " ++ msg), 1, []⟩
  | .response status body =>
      if validateStatus status then ⟨.ok body, 1, []⟩
      else if 300 ≤ status ∧ status < 400 then
        ⟨.error ("Redirect blocked (status " ++ toString status ++ ")"), 1, []⟩
      else if status = 503 then
        if attempt + 1 > maxRetries then
          ⟨.error ("Failed after " ++ toString maxRetries ++ " retries: " ++
              axiosStatusMessage status), 1, []⟩
        else
          let rest := fetchHtmlFrom upstream maxRetries retryDelay (attempt + 1)
          ⟨rest.result, rest.attempts + 1, retryDelay * (attempt + 1) :: rest.delays⟩
      else
        ⟨.error ("Failed to fetch HTML: " ++
            (if status ≠ 0 then toString status else axiosStatusMessage status)), 1, []⟩
termination_by maxRetries - attempt
decreasing_by omega

/-- Method `AmazonHttpClient.fetchHtml` as instantiated in the program:
`new AmazonHttpClient(userAgent)` keeps the constructor defaults
`maxRetries = 3`, `retryDelay = 1000` (src/index.js line 39). -/
def fetchHtml (upstream : Nat → FetchOutcome) : FetchResult :=
  fetchHtmlFrom upstream 3 1000 0

/-! ## ResultExtractor (`AmazonHtmlParser`, src/index.js lines 81–115) -/

/-- One element matched by
`querySelectorAll('[data-component-type="s-search-result"]')`,
abstracted to the four DOM query results the field extractors read:
* `titleText`  — `querySelector('h2 span')?.textContent` (`none` when
  the element is missing);
* `ratingText` — `querySelector('.a-icon-alt')?.textContent`;
* `reviewsText` — `querySelector('[aria-label*="ratings"]')?.textContent`;
* `imageSrc`   — `querySelector('img.s-image')?.src`. -/
structure Item where
  titleText : Option String
  ratingText : Option String
  reviewsText : Option String
  imageSrc : Option String
deriving DecidableEq, Repr

/-- Character class `[0-9.]` of the rating regex. -/
def digitDot (c : Char) : Bool :=
  c.isDigit || c = '.'

/-- Numeric value of a digit run (base 10). -/
def digitsVal (l : List Char) : Nat :=
  l.foldl (fun a c => 10 * a + (c.toNat - 48)) 0

/-- JavaScript `parseFloat` on a string drawn from `[0-9.]+` (the only
strings the code feeds it): integer digits, then an optional fraction
after the first dot, everything beyond ignored; `none` models `NaN`
(token with no leading digits and no digit after the first dot). -/
def jsParseFloatDigits (s : String) : Option ℚ :=
  match s.data.dropWhile Char.isDigit with
  | '.' :: r =>
      if s.data.takeWhile Char.isDigit = [] ∧ r.takeWhile Char.isDigit = [] then none
      else some ((digitsVal (s.data.takeWhile Char.isDigit) : ℚ) +
        (digitsVal (r.takeWhile Char.isDigit) : ℚ) / 10 ^ (r.takeWhile Char.isDigit).length)
  | _ =>
      if s.data.takeWhile Char.isDigit = [] then none
      else some (digitsVal (s.data.takeWhile Char.isDigit) : ℚ)

/-- Attempt of the regex `/([0-9.]+)\s+out of/` at the head of `l`:
a maximal non-empty `[0-9.]` run, maximal non-empty whitespace run,
then the literal `out of`.  (For this pattern maximal munch is complete:
no shorter run can succeed where the maximal one fails, because the
following character class is disjoint.) -/
def ratingMatchAt (l : List Char) : Option (List Char) :=
  let cap := l.takeWhile digitDot
  if cap.isEmpty then none
  else
    let r1 := l.dropWhile digitDot
    if (r1.takeWhile jsWhitespace).isEmpty then none
    else if ((r1.dropWhile jsWhitespace).take 6 = "out of".data : Bool) then some cap
    else none

/-- Model of `text.match(/([0-9.]+)\s+out of/)`: leftmost match, returning the
first capture group. -/
def ratingMatch : List Char → Option (List Char)
  | [] => none
  | c :: rest =>
      match ratingMatchAt (c :: rest) with
      | some cap => some cap
      | none => ratingMatch rest

namespace AmazonHtmlParser

/-- Method `getTitle` (src/index.js lines 95–97):
`item.querySelector('h2 span')?.textContent?.trim() || null` — the
`|| null` turns a trimmed-empty title into `null`. -/
def getTitle (item : Item) : Option String :=
  match item.titleText with
  | none => none
  | some s => if jsTrim s = "" then none else some (jsTrim s)

/-- Method `getRating` (src/index.js lines 99–104): match the element text
(or `''` when the element is missing) against `/([0-9.]+)\s+out of/`
and `parseFloat` the capture; `null` when there is no match.  The inner
`Option ℚ` is the parsed JS number, `none` standing for `NaN`. -/
def getRating (item : Item) : Option (Option ℚ) :=
  match ratingMatch (item.ratingText.getD "").data with
  | some cap => some (jsParseFloatDigits (String.mk cap))
  | none => none

/-- Method `getReviews` (src/index.js lines 106–110): strip every non-digit
from the element text and `parseInt` it; `null` when the element is
missing or nothing is left after stripping. -/
def getReviews (item : Item) : Option Nat :=
  match item.reviewsText with
  | none => none
  | some s =>
      let digits := s.data.filter Char.isDigit
      if digits.isEmpty then none else some (digitsVal digits)

/-- Method `getImage` (src/index.js lines 112–114):
`item.querySelector('img.s-image')?.src || null`. -/
def getImage (item : Item) : Option String :=
  match item.imageSrc with
  | none => none
  | some s => if s = "" then none else some s

/-- The record literal built for one item inside `parse`
(src/index.js lines 87–92). -/
structure ProductRecord where
  title : Option String
  rating : Option (Option ℚ)
  reviews : Option Nat
  image : Option String
deriving DecidableEq, Repr

/-- The per-item mapping function of `parse`. -/
def toRecord (item : Item) : ProductRecord :=
  { title := getTitle item
    rating := getRating item
    reviews := getReviews item
    image := getImage item }

/-- Method `AmazonHtmlParser.parse` (src/index.js lines 82–93) over the list
of matched search-result elements in document order:
`Array.from(items).slice(0, 20).map(...)`. -/
def parse (items : List Item) : List ProductRecord :=
  (items.take 20).map toRecord

end AmazonHtmlParser

/-! ## ResultCache (`Cache`, src/index.js lines 117–136) -/

/-- Constant `CACHE_TTL_MS = 5 * 60 * 1000` (src/index.js line 11). -/
def CACHE_TTL_MS : Nat := 5 * 60 * 1000

/-- An entry of the cache's `Map`: `{ value, expiry }`. -/
structure CacheEntry (α : Type) where
  value : α
  expiry : Nat
deriving DecidableEq, Repr

/-- The `Map` of the cache as an association list with unique keys in
insertion order. -/
def Store (α : Type) := List (String × CacheEntry α)

/-- Model of `Map.prototype.set`: replace the entry of an existing key in place,
otherwise append. -/
def storeSet {α : Type} : Store α → String → CacheEntry α → Store α
  | [], key, e => [(key, e)]
  | (k, old) :: rest, key, e =>
      if k = key then (k, e) :: rest else (k, old) :: storeSet rest key e

/-- Model of `Map.prototype.delete`. -/
def storeDelete {α : Type} (s : Store α) (key : String) : Store α :=
  List.filter (fun kv => kv.1 ≠ key) s

/-- The `Cache` object: TTL plus backing `Map`. -/
structure Cache (α : Type) where
  ttlMs : Nat
  store : Store α

/-- Method `Cache.get` (src/index.js lines 123–131), with `Date.now()` passed
explicitly as `now`.  Returns the JS return value together with the
cache state after the call (the lazy eviction mutates the `Map`):
missing key → `null`; `cached.expiry < Date.now()` → delete and `null`;
otherwise the stored value. -/
def Cache.get {α : Type} (c : Cache α) (key : String) (now : Nat) :
    Option α × Cache α :=
  match List.lookup key c.store with
  | none => (none, c)
  | some cached =>
      if cached.expiry < now then (none, ⟨c.ttlMs, storeDelete c.store key⟩)
      else (some cached.value, c)

/-- Method `Cache.set` (src/index.js lines 133–135):
`store.set(key, { value, expiry: Date.now() + ttlMs })`. -/
def Cache.set {α : Type} (c : Cache α) (key : String) (value : α) (now : Nat) :
    Cache α :=
  ⟨c.ttlMs, storeSet c.store key ⟨value, now + c.ttlMs⟩⟩

/-! ## ScrapePipeline (`AmazonScraperService`, src/index.js lines 138–159)

The service is constructed from its collaborators (url builder, HTTP
client, parser); the model keeps them as parameters, with the HTTP
client abstracted to `url → Except error html` and the parser to
`html → records`, matching the dependency injection in the source. -/

open AmazonHtmlParser in
/-- Method `AmazonScraperService.scrape` (src/index.js lines 146–159) at time
`now`.  Returns the result (or propagated error), the cache state after
the call, and the number of fetches the call issued (0 or 1). -/
def AmazonScraperService.scrape (build : String → String)
    (fetchH : String → Except String String)
    (parseH : String → List ProductRecord)
    (cache : Cache (List ProductRecord)) (now : Nat) (keyword : String) :
    Except String (List ProductRecord) × Cache (List ProductRecord) × Nat :=
  match KeywordValidator.validate keyword with
  | .error e => (.error e, cache, 0)
  | .ok validatedKeyword =>
      match Cache.get cache validatedKeyword now with
      | (some cached, cache1) => (.ok cached, cache1, 0)
      | (none, cache1) =>
          match fetchH (build validatedKeyword) with
          | .error e => (.error e, cache1, 1)
          | .ok html =>
              let parsed := parseH html
              (.ok parsed, Cache.set cache1 validatedKeyword parsed now, 1)

open AmazonHtmlParser in
/-- Two consecutive `scrape` calls for the same keyword against a fresh
service (empty cache with TTL `ttl`), the first at `now1`, the second at
`now2`; yields each call's result paired with its fetch count. -/
def scrapeTwice (build : String → String)
    (fetchH : String → Except String String)
    (parseH : String → List ProductRecord)
    (ttl : Nat) (keyword : String) (now1 now2 : Nat) :
    (Except String (List ProductRecord) × Nat) ×
      (Except String (List ProductRecord) × Nat) :=
  let r1 := AmazonScraperService.scrape build fetchH parseH ⟨ttl, []⟩ now1 keyword
  let r2 := AmazonScraperService.scrape build fetchH parseH r1.2.1 now2 keyword
  ((r1.1, r1.2.2), (r2.1, r2.2.2))

/-! ## Helper lemmas -/

theorem jsTrimList_sublist (l : List Char) : (jsTrimList l).Sublist l := by
  unfold jsTrimList
  have h1 : (l.dropWhile jsWhitespace).Sublist l := List.dropWhile_sublist _
  have h2 : ((l.dropWhile jsWhitespace).reverse.dropWhile jsWhitespace).reverse.Sublist
      (l.dropWhile jsWhitespace) := by
    conv_rhs => rw [← List.reverse_reverse (l.dropWhile jsWhitespace)]
    exact List.reverse_sublist.mpr (List.dropWhile_sublist _)
  exact h2.trans h1

theorem jsTrim_length_le (s : String) : (jsTrim s).length ≤ s.length :=
  (jsTrimList_sublist s.data).length_le

theorem jsTrim_mem_subset (s : String) (c : Char) (h : c ∈ (jsTrim s).data) :
    c ∈ s.data :=
  (jsTrimList_sublist s.data).subset h

theorem string_eq_empty_iff (s : String) : s = "" ↔ s.data = [] := by
  rw [String.ext_iff]

/-! ## Claims about the validator -/

/-- C5: `validate` fails exactly when the input is empty, longer than
50 characters, or has a character outside `[\w\s-]`; on success it
returns the input trimmed of leading/trailing whitespace and otherwise
unchanged. -/
theorem C5_validate_contract (k : String) :
    ((∃ e, KeywordValidator.validate k = Except.error e) ↔
      (k = "" ∨ 50 < k.length ∨ ∃ c ∈ k.data, allowedChar c = false)) ∧
    (∀ r, KeywordValidator.validate k = Except.ok r → r = jsTrim k) := by
  unfold KeywordValidator.validate
  by_cases h1 : k = ""
  · subst h1
    simp
  · by_cases h2 : k.length > MAX_KEYWORD_LENGTH
    · rw [if_neg h1, if_pos h2]
      have h2n : 50 < k.length := h2
      constructor
      · simp [h2n]
      · intro r hr
        simp at hr
    · by_cases h3 : keywordRegexTest k = true
      · rw [if_neg h1, if_neg h2, if_neg (by simp [h3])]
        have hchars : ∀ c ∈ k.data, allowedChar c = true := by
          have h4 := h3
          unfold keywordRegexTest at h4
          simp only [Bool.and_eq_true, List.all_eq_true] at h4
          exact h4.2
        have h2n : ¬ 50 < k.length := h2
        constructor
        · constructor
          · rintro ⟨e, he⟩
            simp at he
          · rintro (h | h | ⟨c, hc, hcc⟩)
            · exact absurd h h1
            · exact absurd h h2n
            · rw [hchars c hc] at hcc
              cases hcc
        · intro r hr
          simp only [Except.ok.injEq] at hr
          exact hr.symm
      · rw [if_neg h1, if_neg h2, if_pos (by simp [h3])]
        constructor
        · constructor
          · intro _
            right; right
            have hne : k.data ≠ [] := fun hd => h1 ((string_eq_empty_iff k).mpr hd)
            by_contra hno
            push_neg at hno
            apply h3
            unfold keywordRegexTest
            simp only [Bool.and_eq_true, List.all_eq_true]
            refine ⟨?_, ?_⟩
            · cases hd : k.data.isEmpty
              · rfl
              · exact absurd (List.isEmpty_iff.mp hd) hne
            · intro c hc
              have hcc := hno c hc
              simpa using hcc
          · intro _
            exact ⟨_, rfl⟩
        · intro r hr
          simp at hr

/-- Witness for C5 at the concrete keyword `"usb charger"`. -/
theorem C5_validate_contract_witness :
    ("usb charger" : String) = jsTrim "usb charger" :=
  (C5_validate_contract "usb charger").2 "usb charger" rfl

/-- C6 counterexample: an all-whitespace keyword passes every check
(whitespace is inside the `[\w\s-]` allow-list) and is then trimmed to
the empty string, so `validate` returns `""` — a 0-character value —
contradicting "1 to 50 characters" and "never returns an empty
string". -/
theorem C6_counterexample :
    KeywordValidator.validate "   " = Except.ok "" ∧ ("" : String).length = 0 :=
  ⟨rfl, rfl⟩

/-- C6 (amended): every value returned by `validate` has at most 50
characters, all inside the allow-list; it can be empty (exactly when
the raw input is all whitespace). -/
theorem C6_returned_keyword_invariant (k r : String)
    (h : KeywordValidator.validate k = Except.ok r) :
    r.length ≤ 50 ∧ ∀ c ∈ r.data, allowedChar c = true := by
  have hparts : ¬ k = "" ∧ ¬ k.length > MAX_KEYWORD_LENGTH ∧
      keywordRegexTest k = true ∧ r = jsTrim k := by
    unfold KeywordValidator.validate at h
    by_cases h1 : k = ""
    · rw [if_pos h1] at h
      simp at h
    · rw [if_neg h1] at h
      by_cases h2 : k.length > MAX_KEYWORD_LENGTH
      · rw [if_pos h2] at h
        simp at h
      · rw [if_neg h2] at h
        by_cases h3 : keywordRegexTest k = true
        · rw [if_neg (by simp [h3])] at h
          simp only [Except.ok.injEq] at h
          exact ⟨h1, h2, h3, h.symm⟩
        · rw [if_pos (by simp [h3])] at h
          simp at h
  obtain ⟨h1, h2, h3, hr⟩ := hparts
  subst hr
  constructor
  · have h2n : k.length ≤ 50 := by
      have : ¬ k.length > 50 := h2
      omega
    exact le_trans (jsTrim_length_le k) h2n
  · intro c hc
    have hmem := jsTrim_mem_subset k c hc
    unfold keywordRegexTest at h3
    simp only [Bool.and_eq_true, List.all_eq_true] at h3
    exact h3.2 c hmem

/-- Witness for C6 (amended) at the concrete keyword `"usb"`. -/
theorem C6_returned_keyword_invariant_witness :
    ("usb" : String).length ≤ 50 ∧ ∀ c ∈ ("usb" : String).data, allowedChar c = true :=
  C6_returned_keyword_invariant "usb" "usb" rfl

/-- C10: the 50-character limit is checked on the raw, untrimmed input
(before `trim`), so a 48-character keyword padded with 5 trailing
spaces (raw length 53) is rejected even though its trimmed content is
a valid 48-character keyword. -/
theorem C10_length_checked_before_trim :
    (∀ k : String, 50 < k.length →
      KeywordValidator.validate k = Except.error "Keyword must be at most 50 characters") ∧
    KeywordValidator.validate
        (String.mk (List.replicate 48 'a' ++ List.replicate 5 ' ')) =
      Except.error "Keyword must be at most 50 characters" ∧
    (jsTrim (String.mk (List.replicate 48 'a' ++ List.replicate 5 ' '))).length = 48 ∧
    KeywordValidator.validate
        (jsTrim (String.mk (List.replicate 48 'a' ++ List.replicate 5 ' '))) =
      Except.ok (String.mk (List.replicate 48 'a')) := by
  refine ⟨?_, by rfl, by decide, by rfl⟩
  intro k hk
  have h1 : ¬ k = "" := by
    intro h
    subst h
    simp at hk
  unfold KeywordValidator.validate
  rw [if_neg h1, if_pos (by exact hk)]

/-- Witness for C10 at a concrete 51-character keyword. -/
theorem C10_length_checked_before_trim_witness :
    KeywordValidator.validate (String.mk (List.replicate 51 'b')) =
      Except.error "Keyword must be at most 50 characters" :=
  C10_length_checked_before_trim.1 (String.mk (List.replicate 51 'b')) (by decide)

/-! ## Claims about the fetch client -/

/-- Bound on axios calls: starting from `attempt = a`, the loop makes
at most `maxRetries - a + 1` attempts. -/
theorem fetchHtmlFrom_attempts_le (upstream : Nat → FetchOutcome)
    (maxRetries retryDelay a : Nat) :
    (fetchHtmlFrom upstream maxRetries retryDelay a).attempts ≤ maxRetries - a + 1 := by
  generalize hn : maxRetries - a = n
  induction n generalizing a with
  | zero =>
      rw [fetchHtmlFrom]
      cases upstream a with
      | networkError msg => exact Nat.le_add_left 1 0
      | response status body =>
          dsimp only
          by_cases hv : validateStatus status = true
          · rw [if_pos hv]
          · rw [if_neg hv]
            by_cases hr : 300 ≤ status ∧ status < 400
            · rw [if_pos hr]
            · rw [if_neg hr]
              by_cases h503 : status = 503
              · rw [if_pos h503, if_pos (show a + 1 > maxRetries by omega)]
              · rw [if_neg h503]
  | succ n ih =>
      rw [fetchHtmlFrom]
      cases upstream a with
      | networkError msg => exact Nat.le_add_left 1 (n + 1)
      | response status body =>
          dsimp only
          by_cases hv : validateStatus status = true
          · rw [if_pos hv]
            exact Nat.le_add_left 1 (n + 1)
          · rw [if_neg hv]
            by_cases hr : 300 ≤ status ∧ status < 400
            · rw [if_pos hr]
              exact Nat.le_add_left 1 (n + 1)
            · rw [if_neg hr]
              by_cases h503 : status = 503
              · rw [if_pos h503]
                by_cases hgt : a + 1 > maxRetries
                · rw [if_pos hgt]
                  exact Nat.le_add_left 1 (n + 1)
                · rw [if_neg hgt]
                  have hih := ih (a + 1) (by omega)
                  show (fetchHtmlFrom upstream maxRetries retryDelay (a + 1)).attempts + 1 ≤
                    n + 1 + 1
                  omega
              · rw [if_neg h503]
                exact Nat.le_add_left 1 (n + 1)

/-- C1 (code behavior at the failing input): an upstream response with
redirect status 302 is accepted as a success by `fetchHtml` — the body
is returned, with a single attempt and no retry — because
`validateStatus` classifies every status in `[200, 400)` as success, so
the `Redirect blocked` branch never runs. -/
theorem C1_redirect_returned_as_success :
    fetchHtml (fun _ => FetchOutcome.response 302 "redirect-interstitial") =
      ⟨Except.ok "redirect-interstitial", 1, []⟩ := by
  simp [fetchHtml, fetchHtmlFrom, validateStatus]

/-- C2: (1) when every attempt yields status 503, `fetchHtml` makes the
initial attempt plus exactly 3 retries (4 axios calls), waiting
`1×1000`, `2×1000`, `3×1000` ms before the retries, and raises the
retry-exhaustion error carrying the last failure's message; (2) no run
ever makes more than 4 axios calls; (3) a first attempt with any
rejected non-503 status fails after exactly one attempt with no delay;
(4) a first attempt with a network failure fails immediately with the
transport message. -/
theorem C2_retry_policy :
    (∀ upstream : Nat → FetchOutcome,
      (∀ n, ∃ b, upstream n = FetchOutcome.response 503 b) →
      fetchHtml upstream =
        ⟨Except.error ("Failed after 3 retries: " ++ axiosStatusMessage 503),
          4, [1000, 2000, 3000]⟩) ∧
    (∀ upstream, (fetchHtml upstream).attempts ≤ 4) ∧
    (∀ upstream status body, upstream 0 = FetchOutcome.response status body →
      validateStatus status = false → status ≠ 503 →
      (fetchHtml upstream).attempts = 1 ∧ (fetchHtml upstream).delays = [] ∧
      ∃ e, (fetchHtml upstream).result = Except.error e) ∧
    (∀ upstream msg, upstream 0 = FetchOutcome.networkError msg →
      fetchHtml upstream = ⟨Except.error ("Failed to fetch HTML: " ++ msg), 1, []⟩) := by
  refine ⟨?_, ?_, ?_, ?_⟩
  · intro upstream h
    obtain ⟨b0, h0⟩ := h 0
    obtain ⟨b1, h1⟩ := h 1
    obtain ⟨b2, h2⟩ := h 2
    obtain ⟨b3, h3⟩ := h 3
    simp [fetchHtml, fetchHtmlFrom, h0, h1, h2, h3, validateStatus]
    rfl
  · intro upstream
    exact fetchHtmlFrom_attempts_le upstream 3 1000 0
  · intro upstream status body h0 hv h503
    have hr : ¬ (300 ≤ status ∧ status < 400) := by
      intro hr
      simp [validateStatus] at hv
      omega
    rw [fetchHtml, fetchHtmlFrom, h0]
    simp [hv, hr, h503]
  · intro upstream msg h0
    rw [fetchHtml, fetchHtmlFrom, h0]

/-- Witness for C2 at the constant-503 upstream. -/
theorem C2_retry_policy_witness :
    fetchHtml (fun _ => FetchOutcome.response 503 "unavailable") =
      ⟨Except.error ("Failed after 3 retries: " ++ axiosStatusMessage 503),
        4, [1000, 2000, 3000]⟩ :=
  C2_retry_policy.1 (fun _ => FetchOutcome.response 503 "unavailable")
    (fun _ => ⟨"unavailable", rfl⟩)

/-! ## Claims about the cache -/

/-- C3 counterexample: at the instant `now = expiry` the code's strict
comparison `cached.expiry < Date.now()` is false, so `get` returns the
stored value and evicts nothing — the claim says it returns `null` at
that instant. -/
theorem C3_counterexample :
    Cache.get (⟨300000, [("k", ⟨7, 100⟩)]⟩ : Cache Nat) "k" 100 =
      (some 7, (⟨300000, [("k", ⟨7, 100⟩)]⟩ : Cache Nat)) := rfl

/-- C3 (amended): for a key holding entry `e`, `get` returns `null`
and evicts exactly when `now > e.expiry` (strictly); when
`now ≤ e.expiry` — including the instant `now = e.expiry` — it returns
the stored value unchanged. A missing key yields `null` with the store
untouched. -/
theorem C3_cache_get_strict_expiry {α : Type} (c : Cache α) (key : String)
    (now : Nat) :
    (∀ e, List.lookup key c.store = some e →
      (e.expiry < now →
        Cache.get c key now = (none, ⟨c.ttlMs, storeDelete c.store key⟩)) ∧
      (now ≤ e.expiry → Cache.get c key now = (some e.value, c))) ∧
    (List.lookup key c.store = none → Cache.get c key now = (none, c)) := by
  constructor
  · intro e he
    constructor
    · intro hlt
      unfold Cache.get
      rw [he]
      dsimp only
      rw [if_pos hlt]
    · intro hle
      unfold Cache.get
      rw [he]
      dsimp only
      rw [if_neg (by omega)]
  · intro hnone
    unfold Cache.get
    rw [hnone]

/-- Witness for C3 (amended): a concrete expired lookup
(`now = expiry + 1`) returns `null` and deletes the entry. -/
theorem C3_cache_get_strict_expiry_witness :
    Cache.get (⟨300000, [("k", ⟨7, 100⟩)]⟩ : Cache Nat) "k" 101 =
      (none, ⟨300000, storeDelete [("k", ⟨7, 100⟩)] "k"⟩) :=
  ((C3_cache_get_strict_expiry (⟨300000, [("k", ⟨7, 100⟩)]⟩ : Cache Nat) "k" 101).1
    ⟨7, 100⟩ rfl).1 (by decide)

/-! ## Claims about the extractor -/

/-- Any non-`NaN` value `parseFloat` produces from a `[0-9.]+` token is
nonnegative (the token cannot carry a sign). -/
theorem jsParseFloatDigits_nonneg (s : String) (q : ℚ)
    (h : jsParseFloatDigits s = some q) : 0 ≤ q := by
  unfold jsParseFloatDigits at h
  split at h
  · split_ifs at h
    simp only [Option.some.injEq] at h
    rw [← h]
    positivity
  · split_ifs at h
    simp only [Option.some.injEq] at h
    rw [← h]
    positivity

/-- C4 counterexample: the code never clamps the parsed rating to the
0.0–5.0 range; markup whose rating element reads `"9.9 out of 5 stars"`
yields a record with rating `9.9 > 5.0`. -/
theorem C4_counterexample :
    ∃ q : ℚ, AmazonHtmlParser.getRating ⟨none, some "9.9 out of 5 stars", none, none⟩ =
      some (some q) ∧ 5 < q := by
  refine ⟨(digitsVal ['9'] : ℚ) + (digitsVal ['9'] : ℚ) / 10 ^
    (List.takeWhile Char.isDigit ['9'] : List Char).length, rfl, ?_⟩
  have h9 : digitsVal ['9'] = 9 := rfl
  have hl : (List.takeWhile Char.isDigit ['9'] : List Char).length = 1 := rfl
  rw [h9, hl]
  norm_num

/-- C4 (amended): a record's rating is either `null`, or `NaN` (when
the matched `[0-9.]+` token holds no digit), or a nonnegative number
parsed from the markup text; the code enforces no 5.0 upper bound. -/
theorem C4_rating_nonneg (item : Item) (q : ℚ)
    (h : AmazonHtmlParser.getRating item = some (some q)) : 0 ≤ q := by
  unfold AmazonHtmlParser.getRating at h
  split at h
  · simp only [Option.some.injEq] at h
    exact jsParseFloatDigits_nonneg _ q h
  · cases h

/-- Witness for C4 (amended) at markup text `"4.5 out of 5 stars"`. -/
theorem C4_rating_nonneg_witness :
    (0 : ℚ) ≤ (digitsVal ['4'] : ℚ) + (digitsVal ['5'] : ℚ) / 10 ^
      (List.takeWhile Char.isDigit ['5'] : List Char).length :=
  C4_rating_nonneg ⟨none, some "4.5 out of 5 stars", none, none⟩ _ rfl

/-- C7: `parse` returns at most 20 records even when more items match,
and the record at every index comes from the item at the same index —
document order is preserved. -/
theorem C7_parse_bounded_and_ordered (items : List Item) :
    (AmazonHtmlParser.parse items).length ≤ 20 ∧
    ∀ (i : Nat) (h1 : i < (AmazonHtmlParser.parse items).length)
      (h2 : i < items.length),
      (AmazonHtmlParser.parse items).get ⟨i, h1⟩ =
        AmazonHtmlParser.toRecord (items.get ⟨i, h2⟩) := by
  constructor
  · unfold AmazonHtmlParser.parse
    rw [List.length_map, List.length_take]
    omega
  · intro i h1 h2
    unfold AmazonHtmlParser.parse at h1 ⊢
    simp [List.get_eq_getElem, List.getElem_map, List.getElem_take]

/-- Witness for C7 on a concrete 25-item list: 20 records come back and
the head record is the head item's record. -/
theorem C7_parse_bounded_and_ordered_witness :
    (AmazonHtmlParser.parse
        (List.replicate 25 (⟨some "t", none, none, some "u"⟩ : Item))).length ≤ 20 ∧
    (AmazonHtmlParser.parse
        (List.replicate 25 (⟨some "t", none, none, some "u"⟩ : Item))).get ⟨0, by decide⟩ =
      AmazonHtmlParser.toRecord
        ((List.replicate 25 (⟨some "t", none, none, some "u"⟩ : Item)).get ⟨0, by decide⟩) :=
  ⟨(C7_parse_bounded_and_ordered _).1,
    (C7_parse_bounded_and_ordered _).2 0 (by decide) (by decide)⟩

/-- C8: the field extractors are independent and total: an item whose
rating element is missing yields a record with `rating = null` while
the other three fields are still computed from their own query results;
likewise each of the other fields degrades to `null` on its own missing
substructure without touching the rest of the record. -/
theorem C8_field_isolation (item : Item) :
    (item.ratingText = none →
      AmazonHtmlParser.toRecord item =
        ⟨AmazonHtmlParser.getTitle item, none, AmazonHtmlParser.getReviews item,
          AmazonHtmlParser.getImage item⟩) ∧
    (item.titleText = none → (AmazonHtmlParser.toRecord item).title = none) ∧
    (item.reviewsText = none → (AmazonHtmlParser.toRecord item).reviews = none) ∧
    (item.imageSrc = none → (AmazonHtmlParser.toRecord item).image = none) := by
  refine ⟨?_, ?_, ?_, ?_⟩
  · intro h
    unfold AmazonHtmlParser.toRecord AmazonHtmlParser.getRating
    rw [h]
    rfl
  · intro h
    unfold AmazonHtmlParser.toRecord AmazonHtmlParser.getTitle
    rw [h]
  · intro h
    unfold AmazonHtmlParser.toRecord AmazonHtmlParser.getReviews
    rw [h]
  · intro h
    unfold AmazonHtmlParser.toRecord AmazonHtmlParser.getImage
    rw [h]

/-- Witness for C8: a concrete item without a rating element keeps its
other three fields. -/
theorem C8_field_isolation_witness :
    AmazonHtmlParser.toRecord ⟨some " Anker charger ", none, some "1,234 ratings", some "img.jpg"⟩ =
      ⟨some "Anker charger", none, some 1234, some "img.jpg"⟩ :=
  ((C8_field_isolation ⟨some " Anker charger ", none, some "1,234 ratings", some "img.jpg"⟩).1
    rfl).trans (by decide)

/-! ## Claims about the pipeline -/

/-- A `scrape` call whose validated keyword is found unexpired in the
cache returns the cached value and performs no fetch. -/
theorem scrape_cache_hit_eq (build : String → String)
    (fetchH : String → Except String String)
    (parseH : String → List AmazonHtmlParser.ProductRecord)
    (cache cache1 : Cache (List AmazonHtmlParser.ProductRecord)) (now : Nat)
    (kw vk : String) (v : List AmazonHtmlParser.ProductRecord)
    (hval : KeywordValidator.validate kw = Except.ok vk)
    (hget : Cache.get cache vk now = (some v, cache1)) :
    AmazonScraperService.scrape build fetchH parseH cache now kw =
      (Except.ok v, cache1, 0) := by
  unfold AmazonScraperService.scrape
  rw [hval]
  dsimp only
  rw [hget]

/-- A `scrape` call that misses the cache and fetches successfully
parses the body, stores it, and reports one fetch. -/
theorem scrape_cache_miss_eq (build : String → String)
    (fetchH : String → Except String String)
    (parseH : String → List AmazonHtmlParser.ProductRecord)
    (cache cache1 : Cache (List AmazonHtmlParser.ProductRecord)) (now : Nat)
    (kw vk html : String)
    (hval : KeywordValidator.validate kw = Except.ok vk)
    (hget : Cache.get cache vk now = (none, cache1))
    (hfetch : fetchH (build vk) = Except.ok html) :
    AmazonScraperService.scrape build fetchH parseH cache now kw =
      (Except.ok (parseH html), Cache.set cache1 vk (parseH html) now, 1) := by
  unfold AmazonScraperService.scrape
  rw [hval]
  dsimp only
  rw [hget]
  dsimp only
  rw [hfetch]

/-- C9: against a fresh service, two `scrape` calls for the same
keyword whose second call falls within the TTL window of the first
(`now2 ≤ now1 + ttl`, matching the cache's strict-expiry test) issue
exactly one fetch in total: the first call fetches once and stores
`parse(html)`; the second call fetches zero times and returns the very
value the first call stored. -/
theorem C9_second_call_hits_cache (build : String → String)
    (fetchH : String → Except String String)
    (parseH : String → List AmazonHtmlParser.ProductRecord)
    (ttl : Nat) (kw vk html : String) (now1 now2 : Nat)
    (hval : KeywordValidator.validate kw = Except.ok vk)
    (hfetch : fetchH (build vk) = Except.ok html)
    (hwindow : now2 ≤ now1 + ttl) :
    scrapeTwice build fetchH parseH ttl kw now1 now2 =
      ((Except.ok (parseH html), 1), (Except.ok (parseH html), 0)) := by
  have hget1 : Cache.get (⟨ttl, []⟩ : Cache (List AmazonHtmlParser.ProductRecord))
      vk now1 = (none, ⟨ttl, []⟩) := rfl
  have hstored : Cache.set (⟨ttl, []⟩ : Cache (List AmazonHtmlParser.ProductRecord))
      vk (parseH html) now1 = ⟨ttl, [(vk, ⟨parseH html, now1 + ttl⟩)]⟩ := rfl
  have hget2 : Cache.get (⟨ttl, [(vk, ⟨parseH html, now1 + ttl⟩)]⟩ :
        Cache (List AmazonHtmlParser.ProductRecord)) vk now2 =
      (some (parseH html), ⟨ttl, [(vk, ⟨parseH html, now1 + ttl⟩)]⟩) := by
    unfold Cache.get
    rw [show List.lookup vk [(vk, (⟨parseH html, now1 + ttl⟩ :
        CacheEntry (List AmazonHtmlParser.ProductRecord)))] =
      some ⟨parseH html, now1 + ttl⟩ by simp [List.lookup]]
    dsimp only
    rw [if_neg (by omega)]
  have h1 := scrape_cache_miss_eq build fetchH parseH ⟨ttl, []⟩ ⟨ttl, []⟩ now1
    kw vk html hval hget1 hfetch
  unfold scrapeTwice
  rw [h1]
  dsimp only
  rw [hstored]
  rw [scrape_cache_hit_eq build fetchH parseH _ _ now2 kw vk (parseH html) hval hget2]

/-- Witness for C9 with concrete collaborators and times. -/
theorem C9_second_call_hits_cache_witness :
    scrapeTwice (fun s => s) (fun _ => Except.ok "h") (fun _ => []) 300000
        "usb charger" 0 300000 =
      ((Except.ok [], 1), (Except.ok [], 0)) :=
  C9_second_call_hits_cache (fun s => s) (fun _ => Except.ok "h") (fun _ => [])
    300000 "usb charger" "usb charger" "h" 0 300000 rfl rfl (by omega)
